import Mathlib

/-!
Shallow embedding of `src/mailer.py` (Arduino multisensor monitor):
payload dictionaries, `check_alerts`, `parse_json_line`, the byte-stream
line framer, the `deque(maxlen=...)` sliding windows, `send_mail` and the
cooldown-gated dispatch step of `reader_thread`.

Conventions:
- JSON numeric values are modelled as `Int` (every threshold in the source
  is an integer and every claim uses integer sensor values).
- Python `None` (which `parse_json_line` produces from the textual `nan`
  via `t.replace("nan", "null")`) is `PyVal.null`.
- A Python `dict` is an association list with unique keys (the JSON parser
  inserts with overwrite); `dict.get(k, d)` is `pyGet`.
- A Python expression that can raise `TypeError` (comparing `None` with an
  `int`) is modelled in `Option`: `none` is the raised exception.
- Wall-clock instants (`time.time()`) are `Int` seconds: the source only
  subtracts and compares them, which integer instants model exactly.
-/

/-- A JSON-decoded Python value as used by the telemetry payloads:
either a number or `None` (from JSON `null`). -/
inductive PyVal where
  | num (n : Int)
  | null
deriving DecidableEq, Repr

/-- A Python dict produced by `json.loads`: association list, unique keys. -/
abbrev Dict := List (String × PyVal)

/-- `payload.get(k, dflt)`: the stored value when the key is present
(including a stored `None`), the default otherwise. -/
def pyGet (d : Dict) (k : String) (dflt : PyVal) : PyVal :=
  (d.lookup k).getD dflt

/-- `payload.get(k)` collapsed as the source uses it for `temp`/`humidity`:
`None` both when the key is absent and when the stored value is `None`
(`tc = data.get("temp", None)` followed by `tc is not None`). -/
def pyGetNone (d : Dict) (k : String) : Option Int :=
  match d.lookup k with
  | some (PyVal.num n) => some n
  | some PyVal.null => none
  | none => none

/-- Python `v > n` for an int threshold: `None > n` raises `TypeError`
(modelled as `none`); a number compares numerically. -/
def pyGt (v : PyVal) (n : Int) : Option Bool :=
  match v with
  | PyVal.num m => some (decide (n < m))
  | PyVal.null => none

/-- Python `v == n` for an int: never raises; `None == n` is `False`. -/
def pyEqInt (v : PyVal) (n : Int) : Bool :=
  match v with
  | PyVal.num m => decide (m = n)
  | PyVal.null => false

/-- Rendering of a payload value in an f-string (`{payload['gas']}`). -/
def pyStr (v : PyVal) : String :=
  match v with
  | PyVal.num n => toString n
  | PyVal.null => "None"

/-- `ALERT_THRESHOLDS` of mailer.py, lines 27-36 (hard-coded constants). -/
structure Thresholds where
  gas : Int := 300
  sound : Int := 500
  water : Int := 300
  vibration : Int := 1
  temp_high : Int := 35
  temp_low : Int := 10
  humidity_high : Int := 80
  humidity_low : Int := 20

def ALERT_THRESHOLDS : Thresholds := {}

/-- The mojibake degree suffix that the source file literally contains in
its temperature f-strings (bytes EC A7 B8 43, i.e. U+C9F8 followed by C). -/
def degC : String := "째C"

/-- One numeric threshold check of `check_alerts`
(`if payload.get(key, 0) > thr: alerts.append(label + str(payload[key]))`):
`none` when the stored value is `None` (TypeError at the comparison),
otherwise the (possibly empty) list of messages this check appends. -/
def numAlert (payload : Dict) (key : String) (thr : Int) (label : String) :
    Option (List String) :=
  match pyGt (pyGet payload key (PyVal.num 0)) thr with
  | none => none
  | some hit =>
      some (if hit then [label ++ pyStr (pyGet payload key (PyVal.num 0))] else [])

/-- Lines 69-74: the temperature block. `payload.get('temp')` is `None`
when absent or stored-None, and then the whole block is skipped; otherwise
`if temp > 35 ... elif temp < 10 ...` appends at most one message. -/
def tempAlerts (payload : Dict) : List String :=
  match pyGetNone payload "temp" with
  | none => []
  | some t =>
      if ALERT_THRESHOLDS.temp_high < t then
        ["HIGH TEMP: " ++ toString t ++ degC]
      else if t < ALERT_THRESHOLDS.temp_low then
        ["LOW TEMP: " ++ toString t ++ degC]
      else []

/-- Lines 76-81: the humidity block, same if/elif shape as temperature. -/
def humAlerts (payload : Dict) : List String :=
  match pyGetNone payload "humidity" with
  | none => []
  | some h =>
      if ALERT_THRESHOLDS.humidity_high < h then
        ["HIGH HUMIDITY: " ++ toString h ++ "%"]
      else if h < ALERT_THRESHOLDS.humidity_low then
        ["LOW HUMIDITY: " ++ toString h ++ "%"]
      else []

/-- `check_alerts` (lines 53-86). The checks run in source order: gas,
sound, water, vibration, temp, humidity, motion. A `TypeError` in one of
the three `>` checks (stored `None` compared with an int) aborts the call
with an exception, modelled as `none`; the messages appended by the checks
that did run are then discarded, exactly as in Python. The `== 1` checks
and the temp/humidity blocks cannot raise. -/
def check_alerts (payload : Dict) : Option (List String) :=
  match numAlert payload "gas" ALERT_THRESHOLDS.gas "HIGH GAS: " with
  | none => none
  | some g =>
    match numAlert payload "sound" ALERT_THRESHOLDS.sound "HIGH SOUND: " with
    | none => none
    | some s =>
      match numAlert payload "water" ALERT_THRESHOLDS.water "HIGH WATER: " with
      | none => none
      | some w =>
          some (g ++ s ++ w
            ++ (if pyEqInt (pyGet payload "vibration" (PyVal.num 0)) 1
                then ["VIBRATION DETECTED"] else [])
            ++ tempAlerts payload
            ++ humAlerts payload
            ++ (if pyEqInt (pyGet payload "motion" (PyVal.num 0)) 1
                then ["MOTION DETECTED"] else []))

/-! ## `parse_json_line` (lines 153-162)

`json.loads` is the CPython JSON decoder; the model implements the
fragment of its grammar that the telemetry frames use (a single object
whose keys are plain quoted strings and whose values are integers or
`null`), rejecting everything else.  Rejection is `none`, exactly the
`except json.JSONDecodeError: return None` path of the source. -/

/-- The opening brace character (the telemetry sentinel `t[0] != "\x7b"`). -/
def lbrace : Char := Char.ofNat 123

/-- The closing brace character. -/
def rbrace : Char := Char.ofNat 125

/-- ASCII whitespace recognised by Python `str.strip()` (the telemetry
stream is ASCII-framed; Unicode spaces do not occur on the wire). -/
def isPySpace (c : Char) : Bool :=
  c = ' ' || c = '\t' || c = '\n' || c = '\r' || c = Char.ofNat 11 || c = Char.ofNat 12

/-- `text.strip()` on the character list. -/
def pyStrip (s : List Char) : List Char :=
  ((s.dropWhile isPySpace).reverse.dropWhile isPySpace).reverse

/-- `t.replace("nan", "null")`: every occurrence, left to right,
non-overlapping, exactly as `str.replace`. -/
def nanToNull : List Char → List Char
  | 'n' :: 'a' :: 'n' :: rest => 'n' :: 'u' :: 'l' :: 'l' :: nanToNull rest
  | c :: rest => c :: nanToNull rest
  | [] => []

def skipWs (s : List Char) : List Char := s.dropWhile isPySpace

/-- A JSON string literal without escapes, after its opening quote. -/
def jsonStrAux : List Char → List Char → Option (String × List Char)
  | [], _ => none
  | c :: rest, acc =>
      if c = '"' then some (String.mk acc.reverse, rest)
      else if c = '\\' then none
      else jsonStrAux rest (c :: acc)

/-- A JSON string literal, including its opening quote. -/
def parseJsonStr : List Char → Option (String × List Char)
  | '"' :: rest => jsonStrAux rest []
  | _ => none

def digitsToNat (ds : List Char) : Nat :=
  ds.foldl (fun acc c => acc * 10 + (c.toNat - 48)) 0

/-- A JSON integer (optional minus, then digits). -/
def parseJsonInt (s : List Char) : Option (Int × List Char) :=
  match s with
  | '-' :: rest =>
      let ds := rest.takeWhile Char.isDigit
      if ds = [] then none
      else some (-(digitsToNat ds : Int), rest.dropWhile Char.isDigit)
  | _ =>
      let ds := s.takeWhile Char.isDigit
      if ds = [] then none
      else some ((digitsToNat ds : Int), s.dropWhile Char.isDigit)

/-- A JSON value of the telemetry fragment: `null` or an integer. -/
def parseJsonVal (s : List Char) : Option (PyVal × List Char) :=
  if ['n', 'u', 'l', 'l'].isPrefixOf s then some (PyVal.null, s.drop 4)
  else (parseJsonInt s).map (fun p => (PyVal.num p.1, p.2))

/-- `dict` insertion with overwrite, as `json.loads` builds its object. -/
def dictInsert (d : Dict) (k : String) (v : PyVal) : Dict :=
  (d.filter (fun p => !(p.1 == k))) ++ [(k, v)]

/-- The members of a JSON object (`"key": value` separated by commas),
fuel-bounded; the fuel is the input length plus one, which the grammar
never exhausts. -/
def parseJsonPairs : Nat → List Char → Dict → Option (Dict × List Char)
  | 0, _, _ => none
  | fuel + 1, s, acc =>
    match parseJsonStr (skipWs s) with
    | none => none
    | some (k, r1) =>
      match skipWs r1 with
      | ':' :: r2 =>
        match parseJsonVal (skipWs r2) with
        | none => none
        | some (v, r3) =>
          let acc2 := dictInsert acc k v
          match skipWs r3 with
          | ',' :: r4 => parseJsonPairs fuel r4 acc2
          | c :: r4 => if c = rbrace then some (acc2, r4) else none
          | [] => none
      | _ => none

/-- `json.loads` on the telemetry fragment: one object, full consumption. -/
def json_loads (t : List Char) : Option Dict :=
  match skipWs t with
  | [] => none
  | c :: rest =>
      if c = lbrace then
        match skipWs rest with
        | [] => none
        | c2 :: rest2 =>
            if c2 = rbrace then
              if skipWs rest2 = [] then some [] else none
            else
              match parseJsonPairs (rest.length + 1) rest [] with
              | some (d, r) => if skipWs r = [] then some d else none
              | none => none
      else none

/-- `parse_json_line` (lines 153-162): strip, require the `\x7b` sentinel,
normalise `nan` to `null`, then decode; any decode failure is `None`. -/
def parse_json_line (text : String) : Option Dict :=
  let t := pyStrip text.toList
  match t with
  | [] => none
  | c :: _ => if c ≠ lbrace then none else json_loads (nanToNull t)

/-! ## Line framing (lines 172-181)

`buf += chunk; while b"\n" in buf: raw, buf = buf.split(b"\n", 1); text =
raw.decode(errors="ignore").strip(); if not text: continue`.  Bytes are
`Nat` below 256; the newline delimiter is byte 10. -/

/-- Prepend a non-delimiter byte to a split result: it extends the first
complete line when one exists, else the trailing fragment. -/
def consLine (b : Nat) : List (List Nat) × List Nat → List (List Nat) × List Nat
  | ([], t) => ([], b :: t)
  | (l :: ls, t) => ((b :: l) :: ls, t)

/-- Split a byte buffer at every newline: the complete lines (delimiter
excluded) and the trailing fragment that holds no newline. -/
def splitNl : List Nat → List (List Nat) × List Nat
  | [] => ([], [])
  | b :: rest =>
      if b = 10 then ([] :: (splitNl rest).1, (splitNl rest).2)
      else consLine b (splitNl rest)

/-- One pass of the inner `while b"\n" in buf` loop after `buf += chunk`:
the new trailing buffer and the raw lines extracted, in order. -/
def feedChunk (buf : List Nat) (chunk : List Nat) : List Nat × List (List Nat) :=
  let p := splitNl (buf ++ chunk)
  (p.2, p.1)

/-- Feeding a sequence of chunks: final trailing buffer and all raw lines
emitted, in order. -/
def runFramer (chunks : List (List Nat))  : List Nat × List (List Nat) :=
  chunks.foldl
    (fun acc c =>
      let p := feedChunk acc.1 c
      (p.1, acc.2 ++ p.2))
    ([], [])

/-- Is `b` a UTF-8 continuation byte? -/
def isCont (b : Nat) : Bool := 128 ≤ b && b < 192

/-- The worker of `utf8DecodeIgnore`, fuel-bounded: every step consumes at
least one byte and exactly one unit of fuel, so fuel equal to the input
length never runs out. -/
def utf8Aux : Nat → List Nat → List Char
  | 0, _ => []
  | _, [] => []
  | fuel + 1, b :: rest =>
      if b < 128 then Char.ofNat b :: utf8Aux fuel rest
      else if 194 ≤ b && b ≤ 223 then
        match rest with
        | b2 :: rest2 =>
            if isCont b2 then
              Char.ofNat ((b - 192) * 64 + (b2 - 128)) :: utf8Aux fuel rest2
            else utf8Aux fuel rest
        | [] => []
      else if 224 ≤ b && b ≤ 239 then
        match rest with
        | b2 :: rest2 =>
            if (if b = 224 then 160 ≤ b2 && b2 < 192
                else if b = 237 then 128 ≤ b2 && b2 < 160
                else isCont b2) then
              match rest2 with
              | b3 :: rest3 =>
                  if isCont b3 then
                    Char.ofNat ((b - 224) * 4096 + (b2 - 128) * 64 + (b3 - 128))
                      :: utf8Aux fuel rest3
                  else utf8Aux fuel rest
              | [] => []
            else utf8Aux fuel rest
        | [] => []
      else if 240 ≤ b && b ≤ 244 then
        match rest with
        | b2 :: rest2 =>
            if (if b = 240 then 144 ≤ b2 && b2 < 192
                else if b = 244 then 128 ≤ b2 && b2 < 144
                else isCont b2) then
              match rest2 with
              | b3 :: rest3 =>
                  if isCont b3 then
                    match rest3 with
                    | b4 :: rest4 =>
                        if isCont b4 then
                          Char.ofNat ((b - 240) * 262144 + (b2 - 128) * 4096
                              + (b3 - 128) * 64 + (b4 - 128))
                            :: utf8Aux fuel rest4
                        else utf8Aux fuel rest
                    | [] => []
                  else utf8Aux fuel rest
              | [] => []
            else utf8Aux fuel rest
        | [] => []
      else utf8Aux fuel rest

/-- `bytes.decode(errors="ignore")`: total UTF-8 decoding that silently
drops the bytes of any invalid or truncated sequence.  On a validity
failure the decoder drops one byte and resynchronises; since a
continuation byte can never start a sequence, this yields byte-for-byte
the output of CPython's maximal-subpart skipping under `ignore`. -/
def utf8DecodeIgnore (l : List Nat) : List Char :=
  utf8Aux l.length l

/-- A raw line through `raw.decode(errors="ignore").strip()`. -/
def decodeStrip (raw : List Nat) : String :=
  String.mk (pyStrip (utf8DecodeIgnore raw))

/-- The complete text lines a chunk sequence makes the reader loop handle:
decoded, stripped, empty lines dropped (`if not text: continue`). -/
def framedLines (chunks : List (List Nat)) : List String :=
  ((runFramer chunks).2.map decodeStrip).filter (fun t => !(t == ""))

/-! ## The bounded windows (lines 39-47 and 189-200)

`maxlen = WINDOW_SEC` and eight `deque(maxlen=maxlen)` buffers; every
Reading appends one sample to each. -/

/-- `collections.deque(maxlen=N).append(x)`: appended on the right; when
the deque is full the leftmost item is discarded first (and a deque of
`maxlen=0` stays empty). -/
def dequeAppend (maxlen : Nat) (d : List α) (x : α) : List α :=
  if maxlen ≤ d.length then (d ++ [x]).drop (d.length + 1 - maxlen)
  else d ++ [x]

/-- One Reading's per-channel values as lines 191-200 buffer them: the
`or 0` coerces a stored `None`/`0` to 0 for the required channels, while
`temp`/`humidity` keep `None` (`float(tc) if tc is not None else None`). -/
structure Sample where
  gas : Int
  snd : Int
  wtr : Int
  vib : Int
  tmpC : Option Int
  hum : Option Int
  mot : Int
deriving DecidableEq, Repr

/-- Python `v or 0` on a payload value followed by the numeric cast:
a stored `None` (and `0` itself) becomes 0, anything else is kept. -/
def pyOrZero (v : PyVal) : Int :=
  match v with
  | PyVal.num n => n
  | PyVal.null => 0

/-- Lines 191-200: build the buffered sample from the decoded frame. -/
def mkSample (data : Dict) : Sample :=
  { gas := pyOrZero (pyGet data "gas" (PyVal.num 0)),
    snd := pyOrZero (pyGet data "sound" (PyVal.num 0)),
    wtr := pyOrZero (pyGet data "water" (PyVal.num 0)),
    vib := pyOrZero (pyGet data "vibration" (PyVal.num 0)),
    tmpC := pyGetNone data "temp",
    hum := pyGetNone data "humidity",
    mot := pyOrZero (pyGet data "motion" (PyVal.num 0)) }

/-- The mutable ingestion state of mailer.py: the cooldown timestamp
`last_email`, the `alert_history` appended by a successful send, and the
eight windowed buffers. -/
structure IngestState where
  last_email : Int
  alert_history : List (List String × Dict)
  ts : List Int
  gas : List Int
  snd : List Int
  wtr : List Int
  vib : List Int
  tmpC : List (Option Int)
  hum : List (Option Int)
  mot : List Int
deriving DecidableEq

/-- The state at program start: `last_email = 0.0`, empty history and
empty buffers. -/
def initState : IngestState :=
  { last_email := 0, alert_history := [],
    ts := [], gas := [], snd := [], wtr := [], vib := [],
    tmpC := [], hum := [], mot := [] }

/-- Lines 189-200: append one Reading to every windowed buffer
(`N = maxlen = WINDOW_SEC`). -/
def appendSample (N : Nat) (st : IngestState) (tsec : Int) (s : Sample) : IngestState :=
  { st with
    ts := dequeAppend N st.ts tsec,
    gas := dequeAppend N st.gas s.gas,
    snd := dequeAppend N st.snd s.snd,
    wtr := dequeAppend N st.wtr s.wtr,
    vib := dequeAppend N st.vib s.vib,
    tmpC := dequeAppend N st.tmpC s.tmpC,
    hum := dequeAppend N st.hum s.hum,
    mot := dequeAppend N st.mot s.mot }

/-- The ingestion loop folded over a list of Readings (timestamp paired
with the per-channel sample), starting from the initial state. -/
def ingestFold (N : Nat) (rs : List (Int × Sample)) : IngestState :=
  rs.foldl (fun st p => appendSample N st p.1 p.2) initState


/-! ## `send_mail` and the cooldown-gated dispatch (lines 88-140, 206-214)

The environment-derived configuration: whether `FROM_EMAIL` and
`APP_PASS` are set (non-empty), and `COOLDOWN_S` (default 60).  The SMTP
conversation itself is the external sink; its outcome is the `smtpOk`
parameter.  `send_mail` wraps the whole SMTP exchange in
`try ... except Exception` (lines 125-140): a sink failure is printed and
swallowed, so `send_mail` returns normally either way, appending to
`alert_history` only on success.  (The subject/body rendering of lines
93-123 is pure string formatting over fixed data and cannot raise; it does
not touch the state modelled here.) -/

structure Config where
  from_email : Bool
  app_pass : Bool
  cooldown : Int
deriving DecidableEq

/-- `send_mail(payload, alerts)` as a state transformer on
`alert_history`: early return when no credentials are configured
(lines 90-91); otherwise the history gains an entry exactly when the SMTP
exchange succeeded, and an SMTP exception is caught and logged
(lines 139-140), never propagated to the caller. -/
def send_mail (cfg : Config) (payload : Dict) (alerts : List String)
    (smtpOk : Bool) (hist : List (List String × Dict)) :
    List (List String × Dict) :=
  if !cfg.from_email || !cfg.app_pass then hist
  else if smtpOk then hist ++ [(alerts, payload)] else hist

/-- The gate of lines 206-208, in source order:
`current_alerts and (time.time() - last_email >= COOLDOWN_S) and
FROM_EMAIL and APP_PASS`. -/
def dispatchCondition (cfg : Config) (alerts : List String) (now last : Int) : Bool :=
  decide (alerts ≠ []) && decide (cfg.cooldown ≤ now - last)
    && cfg.from_email && cfg.app_pass

/-- Lines 206-214: when the gate passes, `send_mail` runs and then
`last_email = time.time()` — unconditionally, because `send_mail` catches
its own failures; the caller's `except` (lines 213-214) is unreachable on
a sink failure.  The returned flag records whether a dispatch was
attempted (the gate passed).  Both `time.time()` reads of the block are
the instant `now`. -/
def dispatchStep (cfg : Config) (st : IngestState) (data : Dict)
    (alerts : List String) (now : Int) (smtpOk : Bool) : IngestState × Bool :=
  if dispatchCondition cfg alerts now st.last_email then
    ({ st with
        alert_history := send_mail cfg data alerts smtpOk st.alert_history,
        last_email := now }, true)
  else (st, false)

/-- Lines 183-214, the handling of one complete framed line: parse; a
`None` or empty dict is printed as raw and skipped (`if not data`);
otherwise the buffers absorb the Reading, `check_alerts` runs, and the
cooldown gate decides dispatch.  A `TypeError` raised by `check_alerts`
unwinds to the `except` of line 235: the buffers keep the appended sample
but no dispatch happens.  The second component reports the alert list
`check_alerts` returned, `none` when it never ran or raised. -/
def processLine (N : Nat) (cfg : Config) (st : IngestState) (text : String)
    (tsec now : Int) (smtpOk : Bool) : IngestState × Option (List String) :=
  match parse_json_line text with
  | none => (st, none)
  | some data =>
      if data = [] then (st, none)
      else
        let st1 := appendSample N st tsec (mkSample data)
        match check_alerts data with
        | none => (st1, none)
        | some alerts => ((dispatchStep cfg st1 data alerts now smtpOk).1, some alerts)

/-! ## Theorems -/

/-- C10: there is a well-formed telemetry line the parser accepts — the
frame carrying the textual `nan` for `gas`, which the `nan`-to-`null`
normalisation turns into a stored `None` — on which `check_alerts` raises
(`None > 300` is a `TypeError`, the `none` result) instead of returning an
alert list: `check_alerts` is not total over the parser's output. -/
theorem check_alerts_raises_on_nan_gas :
    parse_json_line "\x7b\"gas\": nan\x7d" = some [("gas", PyVal.null)]
    ∧ [("gas", PyVal.null)] ≠ ([] : Dict)
    ∧ check_alerts [("gas", PyVal.null)] = none := by
  refine ⟨by decide, by decide, by decide⟩

/-- C3: the gas check is strict greater-than against threshold 300 —
gas 350 yields the HighGas alert whose message contains "350", gas 300
exactly yields no alert — and the sound and water checks follow the same
strict greater-than policy against 500 and 300. -/
theorem strict_gt_threshold_checks :
    check_alerts [("gas", PyVal.num 350)] = some ["HIGH GAS: 350"]
    ∧ List.IsInfix "350".toList "HIGH GAS: 350".toList
    ∧ check_alerts [("gas", PyVal.num 300)] = some []
    ∧ (∀ g : Int, check_alerts [("gas", PyVal.num g)]
        = some (if 300 < g then ["HIGH GAS: " ++ toString g] else []))
    ∧ (∀ s : Int, check_alerts [("sound", PyVal.num s)]
        = some (if 500 < s then ["HIGH SOUND: " ++ toString s] else []))
    ∧ (∀ w : Int, check_alerts [("water", PyVal.num w)]
        = some (if 300 < w then ["HIGH WATER: " ++ toString w] else [])) := by
  refine ⟨by decide, by decide, by decide, ?_, ?_, ?_⟩ <;> intro v <;>
    by_cases h : (300 : Int) < v <;> by_cases h5 : (500 : Int) < v <;>
    simp [check_alerts, numAlert, pyGet, pyGt, pyStr, pyEqInt, tempAlerts,
      humAlerts, pyGetNone, ALERT_THRESHOLDS, List.lookup, h, h5]

/-- The rendered HighTemp and LowTemp messages are never the same string. -/
theorem highTempMsg_ne_lowTempMsg (t u : Int) :
    ("HIGH TEMP: " ++ toString t ++ degC) ≠ ("LOW TEMP: " ++ toString u ++ degC) := by
  intro h
  have h2 := congrArg String.data h
  simp [String.data_append] at h2

/-- C6: with temperature present the engine emits HighTemp when the value
exceeds 35, otherwise LowTemp when it is below 10, never both for one
Reading (`if/elif`); humidity follows the same mutually exclusive policy;
an absent optional field fires no check; and temperature 5 with humidity
absent yields exactly the LowTemp alert. -/
theorem temp_humidity_policy :
    (∀ (d : Dict) (t : Int), pyGetNone d "temp" = some t →
        tempAlerts d =
          (if 35 < t then ["HIGH TEMP: " ++ toString t ++ degC]
           else if t < 10 then ["LOW TEMP: " ++ toString t ++ degC]
           else []))
    ∧ (∀ d : Dict, pyGetNone d "temp" = none → tempAlerts d = [])
    ∧ (∀ (d : Dict) (a b : String), a ∈ tempAlerts d → b ∈ tempAlerts d → a = b)
    ∧ (∀ (d : Dict) (t u : Int),
        ¬ (("HIGH TEMP: " ++ toString t ++ degC) ∈ tempAlerts d
            ∧ ("LOW TEMP: " ++ toString u ++ degC) ∈ tempAlerts d))
    ∧ (∀ (d : Dict) (h : Int), pyGetNone d "humidity" = some h →
        humAlerts d =
          (if 80 < h then ["HIGH HUMIDITY: " ++ toString h ++ "%"]
           else if h < 20 then ["LOW HUMIDITY: " ++ toString h ++ "%"]
           else []))
    ∧ (∀ d : Dict, pyGetNone d "humidity" = none → humAlerts d = [])
    ∧ (∀ (d : Dict) (a b : String), a ∈ humAlerts d → b ∈ humAlerts d → a = b)
    ∧ check_alerts [("temp", PyVal.num 5)]
        = some ["LOW TEMP: " ++ toString (5 : Int) ++ degC] := by
  have hsingle : ∀ (d : Dict) (a b : String), a ∈ tempAlerts d → b ∈ tempAlerts d → a = b := by
    intro d a b ha hb
    cases hT : pyGetNone d "temp" <;> simp [tempAlerts, hT] at ha hb
    case some t =>
      rcases lt_or_le ALERT_THRESHOLDS.temp_high t with h1 | h1
      · rw [if_pos h1] at ha hb
        simp at ha hb
        rw [ha, hb]
      · rw [if_neg (not_lt.mpr h1)] at ha hb
        rcases lt_or_le t ALERT_THRESHOLDS.temp_low with h2 | h2
        · rw [if_pos h2] at ha hb
          simp at ha hb
          rw [ha, hb]
        · rw [if_neg (not_lt.mpr h2)] at ha hb
          simp at ha
  refine ⟨?_, ?_, hsingle, ?_, ?_, ?_, ?_, by decide⟩
  · intro d t hT
    simp [tempAlerts, hT, ALERT_THRESHOLDS]
  · intro d hT
    simp [tempAlerts, hT]
  · intro d t u ⟨ha, hb⟩
    exact highTempMsg_ne_lowTempMsg t u (hsingle d _ _ ha hb)
  · intro d h hH
    simp [humAlerts, hH, ALERT_THRESHOLDS]
  · intro d hH
    simp [humAlerts, hH]
  · intro d a b ha hb
    cases hH : pyGetNone d "humidity" <;> simp [humAlerts, hH] at ha hb
    case some h =>
      rcases lt_or_le ALERT_THRESHOLDS.humidity_high h with h1 | h1
      · rw [if_pos h1] at ha hb
        simp at ha hb
        rw [ha, hb]
      · rw [if_neg (not_lt.mpr h1)] at ha hb
        rcases lt_or_le h ALERT_THRESHOLDS.humidity_low with h2 | h2
        · rw [if_pos h2] at ha hb
          simp at ha hb
          rw [ha, hb]
        · rw [if_neg (not_lt.mpr h2)] at ha hb
          simp at ha

/-- C6 witness: the hypothesised conjuncts at concrete inputs. -/
theorem temp_humidity_policy_witness :
    tempAlerts [("temp", PyVal.num 40)] = ["HIGH TEMP: " ++ toString (40 : Int) ++ degC]
    ∧ tempAlerts [("gas", PyVal.num 1)] = []
    ∧ humAlerts [("humidity", PyVal.num 85)]
        = ["HIGH HUMIDITY: " ++ toString (85 : Int) ++ "%"]
    ∧ humAlerts [] = [] := by
  refine ⟨?_, ?_, ?_, ?_⟩
  · have h := temp_humidity_policy.1 [("temp", PyVal.num 40)] 40 (by decide)
    simpa using h
  · exact temp_humidity_policy.2.1 [("gas", PyVal.num 1)] (by decide)
  · have h := temp_humidity_policy.2.2.2.2.1 [("humidity", PyVal.num 85)] 85 (by decide)
    simpa using h
  · exact temp_humidity_policy.2.2.2.2.2.1 [] (by decide)

/-- C7: a required channel (gas, sound, water, vibration, motion) missing
from the frame behaves as 0/false both in the buffered sample and in its
alert check, so absence alone never yields an alert; an optional channel
(temp, humidity) missing from the frame is buffered as `None` and its
checks are skipped, never defaulted to 0. -/
theorem required_default_optional_unset :
    (∀ d : Dict, d.lookup "gas" = none →
        (mkSample d).gas = 0 ∧ numAlert d "gas" 300 "HIGH GAS: " = some [])
    ∧ (∀ d : Dict, d.lookup "sound" = none →
        (mkSample d).snd = 0 ∧ numAlert d "sound" 500 "HIGH SOUND: " = some [])
    ∧ (∀ d : Dict, d.lookup "water" = none →
        (mkSample d).wtr = 0 ∧ numAlert d "water" 300 "HIGH WATER: " = some [])
    ∧ (∀ d : Dict, d.lookup "vibration" = none →
        (mkSample d).vib = 0 ∧ pyEqInt (pyGet d "vibration" (PyVal.num 0)) 1 = false)
    ∧ (∀ d : Dict, d.lookup "motion" = none →
        (mkSample d).mot = 0 ∧ pyEqInt (pyGet d "motion" (PyVal.num 0)) 1 = false)
    ∧ (∀ d : Dict, d.lookup "temp" = none → (mkSample d).tmpC = none ∧ tempAlerts d = [])
    ∧ (∀ d : Dict, d.lookup "humidity" = none → (mkSample d).hum = none ∧ humAlerts d = [])
    ∧ check_alerts [] = some [] := by
  refine ⟨?_, ?_, ?_, ?_, ?_, ?_, ?_, by decide⟩ <;> intro d h <;>
    simp [mkSample, pyOrZero, pyGet, pyGetNone, pyEqInt, numAlert, pyGt,
      tempAlerts, humAlerts, h]

/-- C7 witness: the per-channel conjuncts at the empty frame. -/
theorem required_default_optional_unset_witness :
    ((mkSample []).gas = 0 ∧ numAlert [] "gas" 300 "HIGH GAS: " = some [])
    ∧ ((mkSample []).snd = 0 ∧ numAlert [] "sound" 500 "HIGH SOUND: " = some [])
    ∧ ((mkSample []).wtr = 0 ∧ numAlert [] "water" 300 "HIGH WATER: " = some [])
    ∧ ((mkSample []).vib = 0 ∧ pyEqInt (pyGet [] "vibration" (PyVal.num 0)) 1 = false)
    ∧ ((mkSample []).mot = 0 ∧ pyEqInt (pyGet [] "motion" (PyVal.num 0)) 1 = false)
    ∧ ((mkSample []).tmpC = none ∧ tempAlerts [] = [])
    ∧ ((mkSample []).hum = none ∧ humAlerts [] = []) :=
  ⟨required_default_optional_unset.1 [] rfl,
   required_default_optional_unset.2.1 [] rfl,
   required_default_optional_unset.2.2.1 [] rfl,
   required_default_optional_unset.2.2.2.1 [] rfl,
   required_default_optional_unset.2.2.2.2.1 [] rfl,
   required_default_optional_unset.2.2.2.2.2.1 [] rfl,
   required_default_optional_unset.2.2.2.2.2.2.1 [] rfl⟩

/-- C1 counterexample: with credentials set, cooldown 60, `last_email = 0`
and alerts present at instant 100, a dispatch whose SMTP send fails
(`smtpOk = false`, so `alert_history` stays empty — the sink reported
failure) still sets `last_email` to 100: the cooldown timestamp is NOT
left unchanged by a failed attempt, because `send_mail` swallows the
exception (lines 139-140) and the caller then runs
`last_email = time.time()` (line 211). -/
theorem failed_dispatch_counterexample :
    initState.last_email = 0
    ∧ (dispatchStep ⟨true, true, 60⟩ initState [("gas", PyVal.num 350)]
        ["HIGH GAS: 350"] 100 false).1.alert_history = []
    ∧ (dispatchStep ⟨true, true, 60⟩ initState [("gas", PyVal.num 350)]
        ["HIGH GAS: 350"] 100 false).1.last_email = 100 := by
  refine ⟨rfl, by decide, by decide⟩

/-- C1 amended: whenever the gate passes, the attempt updates
`last_email` to the current instant regardless of the sink outcome — a
failed send is caught and logged inside `send_mail`, which leaves only
`alert_history` unchanged — so the next Reading with alerts inside the
cooldown window does NOT re-attempt dispatch. -/
theorem failed_dispatch_updates_cooldown (cfg : Config) (st : IngestState)
    (data : Dict) (alerts : List String) (now : Int)
    (h : dispatchCondition cfg alerts now st.last_email = true) :
    (dispatchStep cfg st data alerts now false).1.last_email = now
    ∧ (dispatchStep cfg st data alerts now false).1.alert_history = st.alert_history
    ∧ (dispatchStep cfg st data alerts now false).2 = true
    ∧ (dispatchCondition cfg alerts (now + 1)
        (dispatchStep cfg st data alerts now false).1.last_email = true →
          cfg.cooldown ≤ 1) := by
  have hmail : send_mail cfg data alerts false st.alert_history = st.alert_history := by
    unfold send_mail
    split <;> rfl
  have hle : (dispatchStep cfg st data alerts now false).1.last_email = now := by
    simp [dispatchStep, h]
  refine ⟨hle, by simp [dispatchStep, h, hmail], by simp [dispatchStep, h], ?_⟩
  intro h2
  rw [hle] at h2
  simp [dispatchCondition, and_assoc] at h2
  obtain ⟨-, hc, -⟩ := h2
  omega

/-- C1 witness: the amended theorem at the counterexample input. -/
theorem failed_dispatch_updates_cooldown_witness :
    (dispatchStep ⟨true, true, 60⟩ initState [("gas", PyVal.num 350)]
        ["HIGH GAS: 350"] 100 false).1.last_email = 100
    ∧ (dispatchStep ⟨true, true, 60⟩ initState [("gas", PyVal.num 350)]
        ["HIGH GAS: 350"] 100 false).1.alert_history = initState.alert_history :=
  ⟨(failed_dispatch_updates_cooldown ⟨true, true, 60⟩ initState
      [("gas", PyVal.num 350)] ["HIGH GAS: 350"] 100 (by decide)).1,
   (failed_dispatch_updates_cooldown ⟨true, true, 60⟩ initState
      [("gas", PyVal.num 350)] ["HIGH GAS: 350"] 100 (by decide)).2.1⟩

/-- C2: a dispatch is attempted iff the alert list is non-empty, the
cooldown has elapsed since `last_email`, and both credentials are set
(the gate of lines 206-208); with no sink configured the step is a silent
no-op returning the state unchanged; and the never/within/after cooldown
scenario behaves as specified starting from `last_email = 0`. -/
theorem cooldown_gate_spec (cfg : Config) (alerts : List String)
    (data : Dict) (st0 : IngestState) (now1 now2 now3 : Int)
    (hne : alerts ≠ [])
    (hfrom : cfg.from_email = true) (hpass : cfg.app_pass = true)
    (hlast : st0.last_email = 0)
    (h1 : cfg.cooldown ≤ now1)
    (h2 : now2 - now1 < cfg.cooldown)
    (h3 : cfg.cooldown ≤ now3 - now1) :
    (∀ (al : List String) (now last : Int),
        dispatchCondition cfg al now last = true ↔
          (al ≠ [] ∧ cfg.cooldown ≤ now - last
            ∧ cfg.from_email = true ∧ cfg.app_pass = true))
    ∧ (∀ (cfg2 : Config) (st : IngestState) (d : Dict) (al : List String)
          (now : Int) (ok : Bool),
        cfg2.from_email = false ∨ cfg2.app_pass = false →
          dispatchStep cfg2 st d al now ok = (st, false))
    ∧ dispatchCondition cfg alerts now1 st0.last_email = true
    ∧ dispatchCondition cfg alerts now2
        (dispatchStep cfg st0 data alerts now1 true).1.last_email = false
    ∧ dispatchCondition cfg alerts now3
        (dispatchStep cfg st0 data alerts now1 true).1.last_email = true := by
  have hiff : ∀ (al : List String) (now last : Int),
      dispatchCondition cfg al now last = true ↔
        (al ≠ [] ∧ cfg.cooldown ≤ now - last
          ∧ cfg.from_email = true ∧ cfg.app_pass = true) := by
    intro al now last
    simp [dispatchCondition, and_assoc]
  have hg1 : dispatchCondition cfg alerts now1 st0.last_email = true := by
    refine (hiff alerts now1 st0.last_email).2 ⟨hne, ?_, hfrom, hpass⟩
    omega
  have hstep : (dispatchStep cfg st0 data alerts now1 true).1.last_email = now1 := by
    simp [dispatchStep, hg1]
  refine ⟨hiff, ?_, hg1, ?_, ?_⟩
  · intro cfg2 st d al now ok hno
    have : dispatchCondition cfg2 al now st.last_email = false := by
      rcases hno with hno | hno <;> simp [dispatchCondition, hno]
    simp [dispatchStep, this]
  · rw [hstep]
    cases hb : dispatchCondition cfg alerts now2 now1 with
    | false => rfl
    | true => exact absurd ((hiff alerts now2 now1).1 hb).2.1 (by omega)
  · rw [hstep]
    exact (hiff alerts now3 now1).2 ⟨hne, h3, hfrom, hpass⟩

/-- C2 witness: cooldown 60, alerts present, first acquire at instant
1000 from `last_email = 0` succeeds, at 1030 after the recorded success it
fails, at 1070 it succeeds again; and the no-sink step is a no-op. -/
theorem cooldown_gate_spec_witness :
    dispatchCondition ⟨true, true, 60⟩ ["HIGH GAS: 350"] 1000 initState.last_email = true
    ∧ dispatchCondition ⟨true, true, 60⟩ ["HIGH GAS: 350"] 1030
        (dispatchStep ⟨true, true, 60⟩ initState [] ["HIGH GAS: 350"] 1000 true).1.last_email
        = false
    ∧ dispatchCondition ⟨true, true, 60⟩ ["HIGH GAS: 350"] 1070
        (dispatchStep ⟨true, true, 60⟩ initState [] ["HIGH GAS: 350"] 1000 true).1.last_email
        = true
    ∧ dispatchStep ⟨false, true, 60⟩ initState [] ["HIGH GAS: 350"] 1000 true
        = (initState, false) := by
  have h := cooldown_gate_spec ⟨true, true, 60⟩ ["HIGH GAS: 350"] [] initState
    1000 1030 1070 (by decide) rfl rfl rfl (by decide) (by decide) (by decide)
  exact ⟨h.2.2.1, h.2.2.2.1, h.2.2.2.2, h.2.1 ⟨false, true, 60⟩ initState [] ["HIGH GAS: 350"] 1000 true (Or.inl rfl)⟩

/-- C8: a trimmed line that is empty, does not begin with the telemetry
sentinel, or fails structural decoding makes `parse_json_line` return
`None` without raising, and the reader loop then neither builds a
Reading, nor touches the buffers, nor invokes `check_alerts`. -/
theorem nontelemetry_is_inert (text : String) (N : Nat) (cfg : Config)
    (st : IngestState) (tsec now : Int) (ok : Bool)
    (h : pyStrip text.toList = []
        ∨ (pyStrip text.toList).head? ≠ some lbrace
        ∨ json_loads (nanToNull (pyStrip text.toList)) = none) :
    parse_json_line text = none
    ∧ processLine N cfg st text tsec now ok = (st, none) := by
  have hp : parse_json_line text = none := by
    simp only [parse_json_line]
    cases ht : pyStrip text.toList with
    | nil => rfl
    | cons c rest =>
      rw [ht] at h
      rcases h with h | h | h
      · exact absurd h (by simp)
      · have hc : c ≠ lbrace := by simpa using h
        simp [hc]
      · by_cases hc : c = lbrace
        · subst hc
          simp [h]
        · simp [hc]
  exact ⟨hp, by simp [processLine, hp]⟩

/-- C8 witness: the raw diagnostic line "hello" is inert. -/
theorem nontelemetry_is_inert_witness :
    parse_json_line "hello" = none
    ∧ processLine 300 ⟨true, true, 60⟩ initState "hello" 1 1000 true
        = (initState, none) :=
  nontelemetry_is_inert "hello" 300 ⟨true, true, 60⟩ initState 1 1000 true
    (Or.inr (Or.inl (by decide)))

/-- C9 counterexample: the invalid byte 0xFF decodes to the empty string —
it is dropped by `errors="ignore"` — so no replacement character (U+FFFD)
appears in the decoded output, contrary to the claim that each invalid
sequence is replaced. -/
theorem decode_no_replacement_counterexample :
    utf8DecodeIgnore [255] = [] ∧ Char.ofNat 65533 ∉ utf8DecodeIgnore [255] := by
  refine ⟨by decide, by decide⟩

/-- C9 amended: decoding never fails (the function is total), but invalid
byte sequences are silently dropped (`errors="ignore"`), not replaced: an
invalid lead byte contributes nothing to the output, while ASCII bytes
decode to themselves. -/
theorem decode_total_drops_invalid :
    (∀ bs : List Nat, utf8DecodeIgnore (255 :: bs) = utf8DecodeIgnore bs)
    ∧ (∀ b : Nat, b < 128 → utf8DecodeIgnore [b] = [Char.ofNat b])
    ∧ (∀ b : Nat, 128 ≤ b → utf8DecodeIgnore [b] = []) := by
  refine ⟨?_, ?_, ?_⟩
  · intro bs
    simp [utf8DecodeIgnore, utf8Aux]
  · intro b hb
    simp [utf8DecodeIgnore, utf8Aux, hb]
  · intro b hb
    simp only [utf8DecodeIgnore, List.length_cons, List.length_nil, utf8Aux,
      Nat.not_lt.mpr hb, if_false]
    split <;> try rfl
    split <;> try rfl
    split <;> rfl

/-- C9 witness: the amended theorem at the bytes 65, 255 and [255, 104]. -/
theorem decode_total_drops_invalid_witness :
    utf8DecodeIgnore [65] = [Char.ofNat 65]
    ∧ utf8DecodeIgnore [255] = []
    ∧ utf8DecodeIgnore (255 :: [104]) = utf8DecodeIgnore [104] :=
  ⟨decode_total_drops_invalid.2.1 65 (by decide),
   decode_total_drops_invalid.2.2 255 (by decide),
   decode_total_drops_invalid.1 [104]⟩

/-- `dequeAppend` on a not-overfull deque is a drop of the extended list. -/
theorem dequeAppend_drop {α : Type} (N : Nat) (d : List α) (x : α) :
    dequeAppend N d x = (d ++ [x]).drop (d.length + 1 - N) := by
  unfold dequeAppend
  split
  · rfl
  · rename_i hlt
    have h0 : d.length + 1 - N = 0 := by omega
    rw [h0, List.drop_zero]

/-- Folding `deque(maxlen=N).append` keeps exactly the last `N` inserted
elements, in insertion order. -/
theorem foldl_dequeAppend {α : Type} (N : Nat) (xs : List α) :
    ∀ d : List α, d.length ≤ N →
      xs.foldl (dequeAppend N) d = (d ++ xs).drop (d.length + xs.length - N) := by
  induction xs with
  | nil =>
      intro d h
      have h0 : d.length + ([] : List α).length - N = 0 := by
        simp
        omega
      rw [List.foldl_nil, h0, List.append_nil, List.drop_zero]
  | cons x xs ih =>
      intro d h
      rw [List.foldl_cons, dequeAppend_drop N d x]
      have hlen : ((d ++ [x]).drop (d.length + 1 - N)).length ≤ N := by
        rw [List.length_drop, List.length_append]
        simp
        omega
      rw [ih _ hlen]
      rw [← List.drop_append_of_le_length (by rw [List.length_append]; simp)]
      rw [List.drop_drop]
      rw [List.append_assoc, List.singleton_append]
      congr 1
      rw [List.length_drop, List.length_append]
      simp
      omega

/-- Each buffer of the folded state is the fold of its own channel values
through `dequeAppend`. -/
theorem ingestFold_channels (N : Nat) (rs : List (Int × Sample)) :
    ∀ st : IngestState,
      ((rs.foldl (fun s p => appendSample N s p.1 p.2) st).ts
          = (rs.map Prod.fst).foldl (dequeAppend N) st.ts)
      ∧ ((rs.foldl (fun s p => appendSample N s p.1 p.2) st).gas
          = (rs.map (fun p => p.2.gas)).foldl (dequeAppend N) st.gas)
      ∧ ((rs.foldl (fun s p => appendSample N s p.1 p.2) st).snd
          = (rs.map (fun p => p.2.snd)).foldl (dequeAppend N) st.snd)
      ∧ ((rs.foldl (fun s p => appendSample N s p.1 p.2) st).wtr
          = (rs.map (fun p => p.2.wtr)).foldl (dequeAppend N) st.wtr)
      ∧ ((rs.foldl (fun s p => appendSample N s p.1 p.2) st).vib
          = (rs.map (fun p => p.2.vib)).foldl (dequeAppend N) st.vib)
      ∧ ((rs.foldl (fun s p => appendSample N s p.1 p.2) st).tmpC
          = (rs.map (fun p => p.2.tmpC)).foldl (dequeAppend N) st.tmpC)
      ∧ ((rs.foldl (fun s p => appendSample N s p.1 p.2) st).hum
          = (rs.map (fun p => p.2.hum)).foldl (dequeAppend N) st.hum)
      ∧ ((rs.foldl (fun s p => appendSample N s p.1 p.2) st).mot
          = (rs.map (fun p => p.2.mot)).foldl (dequeAppend N) st.mot) := by
  induction rs with
  | nil => intro st; exact ⟨rfl, rfl, rfl, rfl, rfl, rfl, rfl, rfl⟩
  | cons r rs ih =>
      intro st
      simpa [appendSample] using ih (appendSample N st r.1 r.2)

/-- C5: after any sequence of insertions, every per-channel buffer holds
exactly the last `N` inserted samples in insertion order — so its length
never exceeds `N`, and after `N + k` insertions the `k` oldest samples
are gone, evicted oldest-first, the survivors keeping insertion order. -/
theorem window_bound_and_eviction (N : Nat) (rs : List (Int × Sample)) :
    ((ingestFold N rs).ts = (rs.map Prod.fst).drop (rs.length - N)
      ∧ (ingestFold N rs).gas = (rs.map (fun p => p.2.gas)).drop (rs.length - N)
      ∧ (ingestFold N rs).snd = (rs.map (fun p => p.2.snd)).drop (rs.length - N)
      ∧ (ingestFold N rs).wtr = (rs.map (fun p => p.2.wtr)).drop (rs.length - N)
      ∧ (ingestFold N rs).vib = (rs.map (fun p => p.2.vib)).drop (rs.length - N)
      ∧ (ingestFold N rs).tmpC = (rs.map (fun p => p.2.tmpC)).drop (rs.length - N)
      ∧ (ingestFold N rs).hum = (rs.map (fun p => p.2.hum)).drop (rs.length - N)
      ∧ (ingestFold N rs).mot = (rs.map (fun p => p.2.mot)).drop (rs.length - N))
    ∧ ((ingestFold N rs).ts.length ≤ N
      ∧ (ingestFold N rs).gas.length ≤ N
      ∧ (ingestFold N rs).snd.length ≤ N
      ∧ (ingestFold N rs).wtr.length ≤ N
      ∧ (ingestFold N rs).vib.length ≤ N
      ∧ (ingestFold N rs).tmpC.length ≤ N
      ∧ (ingestFold N rs).hum.length ≤ N
      ∧ (ingestFold N rs).mot.length ≤ N) := by
  have hch := ingestFold_channels N rs initState
  have hfold : ∀ {α : Type} (vals : List α),
      vals.foldl (dequeAppend N) ([] : List α) = vals.drop (vals.length - N) := by
    intro α vals
    have h := foldl_dequeAppend N vals [] (by simp)
    simpa using h
  obtain ⟨h1, h2, h3, h4, h5, h6, h7, h8⟩ := hch
  have e1 : (ingestFold N rs).ts = (rs.map Prod.fst).drop (rs.length - N) := by
    rw [ingestFold, h1]
    simpa [initState] using hfold (rs.map Prod.fst)
  have e2 : (ingestFold N rs).gas = (rs.map (fun p => p.2.gas)).drop (rs.length - N) := by
    rw [ingestFold, h2]
    simpa [initState] using hfold (rs.map (fun p => p.2.gas))
  have e3 : (ingestFold N rs).snd = (rs.map (fun p => p.2.snd)).drop (rs.length - N) := by
    rw [ingestFold, h3]
    simpa [initState] using hfold (rs.map (fun p => p.2.snd))
  have e4 : (ingestFold N rs).wtr = (rs.map (fun p => p.2.wtr)).drop (rs.length - N) := by
    rw [ingestFold, h4]
    simpa [initState] using hfold (rs.map (fun p => p.2.wtr))
  have e5 : (ingestFold N rs).vib = (rs.map (fun p => p.2.vib)).drop (rs.length - N) := by
    rw [ingestFold, h5]
    simpa [initState] using hfold (rs.map (fun p => p.2.vib))
  have e6 : (ingestFold N rs).tmpC = (rs.map (fun p => p.2.tmpC)).drop (rs.length - N) := by
    rw [ingestFold, h6]
    simpa [initState] using hfold (rs.map (fun p => p.2.tmpC))
  have e7 : (ingestFold N rs).hum = (rs.map (fun p => p.2.hum)).drop (rs.length - N) := by
    rw [ingestFold, h7]
    simpa [initState] using hfold (rs.map (fun p => p.2.hum))
  have e8 : (ingestFold N rs).mot = (rs.map (fun p => p.2.mot)).drop (rs.length - N) := by
    rw [ingestFold, h8]
    simpa [initState] using hfold (rs.map (fun p => p.2.mot))
  refine ⟨⟨e1, e2, e3, e4, e5, e6, e7, e8⟩, ?_⟩
  rw [e1, e2, e3, e4, e5, e6, e7, e8]
  simp
  omega

/-- A pair whose first component is known is its constructor form. -/
theorem splitNl_eta_nil (a : List Nat) (h : (splitNl a).1 = []) :
    splitNl a = ([], (splitNl a).2) := by
  rw [← h]

/-- A pair whose first component is a cons is its constructor form. -/
theorem splitNl_eta_cons (a : List Nat) (l0 : List Nat) (ls : List (List Nat))
    (h : (splitNl a).1 = l0 :: ls) :
    splitNl a = (l0 :: ls, (splitNl a).2) := by
  rw [← h]

/-- A buffer with no newline is left intact by `splitNl`: no line is
complete, everything stays as the trailing fragment. -/
theorem splitNl_noNewline (l : List Nat) (h : (10 : Nat) ∉ l) : splitNl l = ([], l) := by
  induction l with
  | nil => rfl
  | cons b rest ih =>
      simp at h
      rw [splitNl, if_neg (Ne.symm h.1), ih h.2]
      rfl

/-- The trailing fragment returned by `splitNl` never holds a newline. -/
theorem splitNl_tail_noNewline (l : List Nat) : (10 : Nat) ∉ (splitNl l).2 := by
  induction l with
  | nil => simp [splitNl]
  | cons b rest ih =>
      by_cases hb : b = 10
      · simpa [splitNl, hb] using ih
      · rw [splitNl, if_neg hb]
        cases h1 : (splitNl rest).1 with
        | nil =>
            rw [splitNl_eta_nil rest h1, consLine]
            simp
            exact ⟨fun hc => hb hc.symm, ih⟩
        | cons l0 ls =>
            rw [splitNl_eta_cons rest l0 ls h1, consLine]
            simpa using ih

/-- Splitting a concatenation equals splitting the first part and then
splitting its trailing fragment glued to the second part. -/
theorem splitNl_append (a b : List Nat) :
    splitNl (a ++ b) = ((splitNl a).1 ++ (splitNl ((splitNl a).2 ++ b)).1,
                        (splitNl ((splitNl a).2 ++ b)).2) := by
  induction a with
  | nil => simp [splitNl]
  | cons x a ih =>
      by_cases hx : x = 10
      · rw [List.cons_append, splitNl, if_pos hx, splitNl, if_pos hx, ih]
        simp
      · rw [List.cons_append, splitNl, if_neg hx, splitNl, if_neg hx, ih]
        cases h1 : (splitNl a).1 with
        | nil =>
            rw [splitNl_eta_nil a h1, consLine]
            simp only [h1, List.nil_append]
            rw [List.cons_append, splitNl, if_neg hx]
        | cons l0 ls =>
            rw [splitNl_eta_cons a l0 ls h1, consLine]
            simp [h1, consLine]

/-- Folding the reader loop over chunks from a newline-free pending buffer
is one `splitNl` of the whole stream. -/
theorem runFramer_general (chunks : List (List Nat)) :
    ∀ (buf : List Nat) (out : List (List Nat)), (10 : Nat) ∉ buf →
      chunks.foldl
          (fun acc c =>
            let p := feedChunk acc.1 c
            (p.1, acc.2 ++ p.2))
          (buf, out)
        = ((splitNl (buf ++ chunks.flatten)).2,
           out ++ (splitNl (buf ++ chunks.flatten)).1) := by
  induction chunks with
  | nil =>
      intro buf out h
      simp [splitNl_noNewline buf h]
  | cons c chunks ih =>
      intro buf out h
      rw [List.foldl_cons]
      show chunks.foldl
          (fun acc c =>
            let p := feedChunk acc.1 c
            (p.1, acc.2 ++ p.2))
          ((splitNl (buf ++ c)).2, out ++ (splitNl (buf ++ c)).1)
        = ((splitNl (buf ++ (c :: chunks).flatten)).2,
           out ++ (splitNl (buf ++ (c :: chunks).flatten)).1)
      rw [ih _ _ (splitNl_tail_noNewline _)]
      rw [List.flatten_cons, ← List.append_assoc, splitNl_append (buf ++ c) chunks.flatten]
      simp

/-- C4: feeding a byte stream to the framer in arbitrary chunks yields the
same ordered complete lines — and the same processed text lines, each the
decoded text before a newline, stripped, with empties dropped — and the
same trailing buffered fragment, as feeding the whole stream at once;
a newline-free tail stays buffered, and the bytes before each newline are
emitted as one line excluding the delimiter. -/
theorem framer_chunk_invariance (chunks : List (List Nat)) :
    runFramer chunks = runFramer [chunks.flatten]
    ∧ framedLines chunks = framedLines [chunks.flatten]
    ∧ (runFramer chunks).2 = (splitNl chunks.flatten).1
    ∧ (runFramer chunks).1 = (splitNl chunks.flatten).2
    ∧ (∀ l r : List Nat, (10 : Nat) ∉ l →
        splitNl (l ++ 10 :: r) = (l :: (splitNl r).1, (splitNl r).2))
    ∧ (∀ l : List Nat, (10 : Nat) ∉ l → splitNl l = ([], l)) := by
  have hrun : ∀ cs : List (List Nat),
      runFramer cs = ((splitNl cs.flatten).2, (splitNl cs.flatten).1) := by
    intro cs
    have h := runFramer_general cs [] [] (by simp)
    simpa [runFramer] using h
  have hone : runFramer [chunks.flatten]
      = ((splitNl chunks.flatten).2, (splitNl chunks.flatten).1) := by
    rw [hrun [chunks.flatten]]
    simp
  have hline : ∀ l r : List Nat, (10 : Nat) ∉ l →
      splitNl (l ++ 10 :: r) = (l :: (splitNl r).1, (splitNl r).2) := by
    intro l r hl
    induction l with
    | nil =>
        rw [List.nil_append, splitNl, if_pos rfl]
    | cons b l ihl =>
        simp at hl
        have ih2 := ihl hl.2
        rw [List.cons_append, splitNl, if_neg (Ne.symm hl.1), ih2, consLine]
  refine ⟨by rw [hrun chunks, hone], ?_, by rw [hrun chunks], by rw [hrun chunks],
    hline, fun l h => splitNl_noNewline l h⟩
  unfold framedLines
  rw [hrun chunks, hone]

/-- C4 witness: the line-extraction conjuncts at concrete buffers. -/
theorem framer_chunk_invariance_witness :
    splitNl ([104] ++ 10 :: [105]) = ([[104]], [105])
    ∧ splitNl [104] = ([], [104]) := by
  have h := framer_chunk_invariance []
  refine ⟨?_, h.2.2.2.2.2 [104] (by decide)⟩
  exact (h.2.2.2.2.1 [104] [105] (by decide)).trans (by decide)
